import Mathlib

/-!
Verification development for the icicle-insights service.

The definitions below are a shallow embedding of the C++ sources:

* `include/insights/db/db.hpp`      - the generic persistence layer
  (`Database::create/get/update/remove/getAll`), modelled as pure
  functions over an explicit table state (`List (DbRow α)`).  The SQL
  statements are modelled by their effect on the row list; `NOW()` is an
  explicit `now : Nat` parameter; row decoding (`DbTraits<T>::fromRow`)
  is the identity on the row record.
* `include/insights/github/responses.hpp` and the `glz::read` calls in
  `src/github/tasks.cpp` - JSON bodies are modelled as association
  lists `List (String × Int)` (`none` stands for a body that is not a
  well-formed object); `glz::read` with `error_on_unknown_keys = false`
  and the default `error_on_missing_keys = false` keeps a field's
  pre-read value when its key is absent and ignores unknown keys.
* `src/github/tasks.cpp` - the sync pipeline `updateRepositories`,
  `updateAccounts`, `syncStats`; the HTTP client and database outcomes
  are supplied by an environment record `SyncEnv`, and the `spdlog`
  failure records are modelled as an explicit `List LogEvent` trace.
* `include/insights/core/scheduler.hpp` and the `OnGitHubSync` handler
  in `src/insights.cpp` - the recurring-timer handler, modelled as a
  step function on a clock/timer state, with asio's `expires_after d`
  meaning `expiry := now + d`.
-/

/-- Error outcomes of the persistence layer: `Database::get` returns the
distinguished message "Not found" on an empty result; every other failure
is a storage exception converted to `core::Error` with a message. -/
inductive DbError where
  | notFound
  | storage (msg : String)
deriving DecidableEq, Repr

/-- One relational row as decoded by `DbTraits<T>::fromRow`: identity,
entity payload columns, and the three timestamp columns.  `deleted_at`
decodes to an explicit `Option`, absent = live row. -/
structure DbRow (α : Type) where
  id : String
  payload : α
  created_at : Nat
  updated_at : Nat
  deleted_at : Option Nat
deriving DecidableEq, Repr

abbrev Table (α : Type) := List (DbRow α)

/-- Rows produced by `SELECT * FROM t WHERE id = $1`: filter on the id
column only.  Note there is no `deleted_at` clause in the source query. -/
def selectById (t : Table α) (i : String) : List (DbRow α) :=
  t.filter (fun r => r.id == i)

/-- `Database::get` (db.hpp lines 90-128): run the point query; if the
result is empty return the "Not found" error, otherwise decode row 0. -/
def Database.get (t : Table α) (i : String) : Except DbError (DbRow α) :=
  match selectById t i with
  | [] => Except.error DbError.notFound
  | r :: _ => Except.ok r

/-- `Database::create` (db.hpp lines 35-88): `INSERT ... RETURNING *`;
the server assigns the fresh id and both timestamps. -/
def Database.create (t : Table α) (newId : String) (p : α) (now : Nat) :
    Table α × DbRow α :=
  let row : DbRow α :=
    { id := newId, payload := p, created_at := now, updated_at := now,
      deleted_at := none }
  (t ++ [row], row)

/-- `Database::update` (db.hpp lines 163-203):
`UPDATE t SET <payload columns>, updated_at = NOW() WHERE id = $1
RETURNING *`.  The update-assignment list covers exactly the payload
columns, so `deleted_at` is left untouched; `updated_at` is refreshed. -/
def Database.update (t : Table α) (i : String) (p : α) (now : Nat) :
    Table α × Option (DbRow α) :=
  let t2 := t.map (fun r =>
    if r.id == i then { r with payload := p, updated_at := now } else r)
  (t2, (selectById t2 i).head?)

/-- `Database::remove` (db.hpp lines 130-161), the soft delete:
`UPDATE t SET deleted_at = NOW() WHERE id = $1 RETURNING *`.  Only
`deleted_at` is assigned; `updated_at` is NOT in the SET list.  The
source then decodes `Res[0]` with no emptiness check (contrast
`Database::get`, which checks `Result.empty()` first); the returned
`Option` is `none` exactly when that unguarded row-0 access happens on
an empty result. -/
def Database.remove (t : Table α) (i : String) (now : Nat) :
    Table α × Option (DbRow α) :=
  let t2 := t.map (fun r =>
    if r.id == i then { r with deleted_at := some now } else r)
  let returned := (selectById t i).map (fun r => { r with deleted_at := some now })
  (t2, returned.head?)

/-- `Database::getAll` (db.hpp lines 205-238): `SELECT * FROM t` with no
WHERE clause at all - every row is decoded and returned, soft-deleted
rows included. -/
def Database.getAll (t : Table α) : List (DbRow α) :=
  t

/-! ## External Metrics Client: response shapes and JSON decoding -/

/-- A parsed JSON object body: field name to integer value.  All fields
the client decodes are integers; unknown extra fields are arbitrary
additional pairs. -/
abbrev JsonObj := List (String × Int)

/-- Outcome of one `Client->get` call: a transport-level failure, or a
response whose body is either a well-formed JSON object (`some obj`) or
unparseable (`none`). -/
inductive FetchOutcome where
  | transportError (msg : String)
  | response (body : Option JsonObj)
deriving DecidableEq, Repr

/-- Field extraction as performed by `glz::read` with
`error_on_unknown_keys = false` (set explicitly at every call site in
`src/github/tasks.cpp`) and the glaze default
`error_on_missing_keys = false`: a present key overwrites the field, an
absent key leaves the field at its pre-read value. -/
def glzField (b : JsonObj) (key : String) (pre : Int) : Int :=
  match b.lookup key with
  | some v => v
  | none => pre

/-- `responses::GitHubRepoStatsResponse` (responses.hpp lines 5-9). -/
structure GitHubRepoStatsResponse where
  stargazers_count : Int
  forks_count : Int
  subscribers_count : Int
deriving DecidableEq, Repr

/-- `responses::GitHubRepoTrafficResponse` (responses.hpp lines 11-13). -/
structure GitHubRepoTrafficResponse where
  count : Int
deriving DecidableEq, Repr

/-- `responses::GitHubOrgStatsResponse` (responses.hpp lines 14-16). -/
structure GitHubOrgStatsResponse where
  followers : Int
deriving DecidableEq, Repr

/-- `glz::read` into a `GitHubRepoStatsResponse` whose pre-read value is
`pre` (the C++ call sites read into a value-initialised `Stats{}`, so
`pre` is all zeros there).  A body that is not a well-formed object
fails; a well-formed object always decodes. -/
def readRepoStats (pre : GitHubRepoStatsResponse) (body : Option JsonObj) :
    Except String GitHubRepoStatsResponse :=
  match body with
  | none => Except.error "Parse failed"
  | some b =>
    Except.ok
      { stargazers_count := glzField b "stargazers_count" pre.stargazers_count,
        forks_count := glzField b "forks_count" pre.forks_count,
        subscribers_count := glzField b "subscribers_count" pre.subscribers_count }

/-- `glz::read` into a `GitHubRepoTrafficResponse` with pre-read value
`pre`.  (The views-traffic call in `updateRepositories` reuses the
`TrafficStats` variable, so its pre-read value there is the decoded
clones response, not zero.) -/
def readTraffic (pre : GitHubRepoTrafficResponse) (body : Option JsonObj) :
    Except String GitHubRepoTrafficResponse :=
  match body with
  | none => Except.error "Parse failed"
  | some b => Except.ok { count := glzField b "count" pre.count }

/-- `glz::read` into a `GitHubOrgStatsResponse` with pre-read value `pre`. -/
def readOrgStats (pre : GitHubOrgStatsResponse) (body : Option JsonObj) :
    Except String GitHubOrgStatsResponse :=
  match body with
  | none => Except.error "Parse failed"
  | some b => Except.ok { followers := glzField b "followers" pre.followers }

/-! ## Entity model (`include/insights/github/models.hpp`) -/

/-- `github::models::Account`.  Timestamps are abstract `Nat` instants. -/
structure Account where
  Id : String
  Name : String
  Followers : Int
  CreatedAt : Nat
  UpdatedAt : Nat
  DeletedAt : Option Nat
deriving DecidableEq, Repr

/-- `github::models::Repository`. -/
structure Repository where
  Id : String
  Name : String
  AccountId : String
  Clones : Int
  Forks : Int
  Stars : Int
  Subscribers : Int
  Views : Int
  CreatedAt : Nat
  UpdatedAt : Nat
  DeletedAt : Option Nat
deriving DecidableEq, Repr

/-! ## Sync Orchestrator (`src/github/tasks.cpp`) -/

/-- Failure-path log records emitted via spdlog by the pipeline and by
the persistence layer it calls.  (Success-path trace/info records are
not modelled; the claims only concern failure records.) -/
inductive LogEvent where
  | dbGetAllFailed (table msg : String)
  | dbGetNotFound (table id : String)
  | dbGetFailed (table msg : String)
  | httpGetFailed (url msg : String)
  | parseFailed (msg : String)
  | clientNull
  | caCertsMissing
  | dbUpdateFailedTask (id msg : String)
deriving DecidableEq, Repr

/-- The log records `Database::get` emits on a failing lookup: a debug
record for the empty-result case (db.hpp lines 106-113), an error
record when a storage exception was caught (lines 120-127). -/
def dbGetLog (table i : String) (e : DbError) : List LogEvent :=
  match e with
  | DbError.notFound => [LogEvent.dbGetNotFound table i]
  | DbError.storage m => [LogEvent.dbGetFailed table m]

/-- Environment for one pipeline run: outcomes of the external HTTP
calls (keyed by the path components of the URL the source builds), of
the `Database::get` account lookups, and of the `Database::update`
persistence calls; plus whether the HTTP client pointer is non-null and
whether `configure_system_ca_certificates` succeeded. -/
structure SyncEnv where
  caCertsOk : Bool
  clientValid : Bool
  accountLookup : String → Except DbError Account
  repoStatsFetch : String → String → FetchOutcome
  clonesFetch : String → String → FetchOutcome
  viewsFetch : String → String → FetchOutcome
  orgStatsFetch : String → FetchOutcome
  repoUpdateResult : String → Except String Unit
  accountUpdateResult : String → Except String Unit

/-- Body of the per-repository loop of `updateRepositories`
(tasks.cpp lines 65-145), up to but not including the `Database.update`
call: account lookup, repo-stats fetch+decode and merge, clones-traffic
fetch+decode and merge, views-traffic fetch+decode and merge.  Returns
`(some merged, logs)` when control reaches the update of step 6, and
`(none, logs)` when a failed step hit `continue` and skipped the rest
of the body - in which case nothing of this repository is persisted. -/
def syncOneRepository (env : SyncEnv) (r0 : Repository) :
    Option Repository × List LogEvent :=
  match env.accountLookup r0.AccountId with
  | Except.error e => (none, dbGetLog "github_accounts" r0.AccountId e)
  | Except.ok acct =>
    match env.repoStatsFetch acct.Name r0.Name with
    | FetchOutcome.transportError m =>
      (none, [LogEvent.httpGetFailed (acct.Name ++ "/" ++ r0.Name) m])
    | FetchOutcome.response body1 =>
      match readRepoStats ⟨0, 0, 0⟩ body1 with
      | Except.error m => (none, [LogEvent.parseFailed m])
      | Except.ok stats =>
        let r1 : Repository :=
          { r0 with
            Forks := r0.Forks + stats.forks_count,
            Stars := r0.Stars + stats.stargazers_count,
            Subscribers := r0.Subscribers + stats.subscribers_count }
        match env.clonesFetch acct.Name r0.Name with
        | FetchOutcome.transportError m =>
          (none, [LogEvent.httpGetFailed (acct.Name ++ "/" ++ r0.Name ++ "/traffic/clones") m])
        | FetchOutcome.response body2 =>
          match readTraffic ⟨0⟩ body2 with
          | Except.error m => (none, [LogEvent.parseFailed m])
          | Except.ok traffic =>
            let r2 : Repository := { r1 with Clones := r1.Clones + traffic.count }
            match env.viewsFetch acct.Name r0.Name with
            | FetchOutcome.transportError m =>
              (none, [LogEvent.httpGetFailed (acct.Name ++ "/" ++ r0.Name ++ "/traffic/views") m])
            | FetchOutcome.response body3 =>
              match readTraffic traffic body3 with
              | Except.error m => (none, [LogEvent.parseFailed m])
              | Except.ok traffic2 =>
                (some { r2 with Views := r2.Views + traffic2.count }, [])

/-- Log trace contributed by one iteration of the repository loop,
including the `Database.update` failure record of tasks.cpp lines
160-167 when step 6 runs and the update fails. -/
def perRepoTrace (env : SyncEnv) (r : Repository) : List LogEvent :=
  match syncOneRepository env r with
  | (none, l) => l
  | (some r2, l) =>
    l ++ (match env.repoUpdateResult r2.Id with
          | Except.ok _ => []
          | Except.error m => [LogEvent.dbUpdateFailedTask r2.Id m])

/-- The arguments of the `Database.update` calls issued by the
repository loop, in iteration order: exactly the repositories whose
loop body reached step 6. -/
def repoUpdateCalls (env : SyncEnv) (repos : List Repository) : List Repository :=
  repos.filterMap (fun r => (syncOneRepository env r).1)

/-- Did the modelled `Database.update` succeed for this entity id? -/
def repoUpdateOk (env : SyncEnv) (i : String) : Bool :=
  match env.repoUpdateResult i with
  | Except.ok _ => true
  | Except.error _ => false

/-- The repositories actually persisted: issued updates whose
`Database.update` succeeded. -/
def repoPersisted (env : SyncEnv) (repos : List Repository) : List Repository :=
  (repoUpdateCalls env repos).filter (fun r2 => repoUpdateOk env r2.Id)

/-- All failure log records of one repository-loop run. -/
def repoLoopLogs (env : SyncEnv) (repos : List Repository) : List LogEvent :=
  repos.flatMap (perRepoTrace env)

/-- Result of one `updateRepositories` call: its returned
`std::expected`, the update calls it issued, the subset persisted, and
the failure log trace. -/
structure SyncRun (α : Type) where
  result : Except String Unit
  updates : List α
  persisted : List α
  logs : List LogEvent
deriving Repr

/-- `updateRepositories` (tasks.cpp lines 39-170), as a function of the
`Database::getAll` outcome.  A failed `getAll` returns success with no
work done (lines 54-57) - the failure record comes from the catch block
inside `Database::getAll` itself (db.hpp lines 230-237), not from the
orchestrator.  A null client is the only error the function returns
(lines 60-63). -/
def updateRepositories (env : SyncEnv)
    (getAllOutcome : Except String (List Repository)) : SyncRun Repository :=
  match getAllOutcome with
  | Except.error m =>
    { result := Except.ok (), updates := [], persisted := [],
      logs := [LogEvent.dbGetAllFailed "github_repositories" m] }
  | Except.ok repos =>
    if env.clientValid then
      { result := Except.ok (),
        updates := repoUpdateCalls env repos,
        persisted := repoPersisted env repos,
        logs := repoLoopLogs env repos }
    else
      { result := Except.error "Client initialization failed", updates := [],
        persisted := [], logs := [LogEvent.clientNull] }

/-- Body of the per-account loop of `updateAccounts` (tasks.cpp lines
200-243), up to but not including the `Database.update` call: org-stats
fetch+decode and the `Followers` merge. -/
def syncOneAccount (env : SyncEnv) (a0 : Account) :
    Option Account × List LogEvent :=
  match env.orgStatsFetch a0.Name with
  | FetchOutcome.transportError m =>
    (none, [LogEvent.httpGetFailed ("orgs/" ++ a0.Name) m])
  | FetchOutcome.response body =>
    match readOrgStats ⟨0⟩ body with
    | Except.error m => (none, [LogEvent.parseFailed m])
    | Except.ok stats =>
      (some { a0 with Followers := a0.Followers + stats.followers }, [])

/-- Log trace contributed by one iteration of the account loop,
including the `Database.update` failure record (tasks.cpp lines
237-242). -/
def perAccountTrace (env : SyncEnv) (a : Account) : List LogEvent :=
  match syncOneAccount env a with
  | (none, l) => l
  | (some a2, l) =>
    l ++ (match env.accountUpdateResult a2.Id with
          | Except.ok _ => []
          | Except.error m => [LogEvent.dbUpdateFailedTask a2.Id m])

/-- The arguments of the `Database.update` calls issued by the account
loop, in iteration order. -/
def accountUpdateCalls (env : SyncEnv) (accounts : List Account) : List Account :=
  accounts.filterMap (fun a => (syncOneAccount env a).1)

/-- Did the modelled `Database.update` succeed for this account id? -/
def accountUpdateOk (env : SyncEnv) (i : String) : Bool :=
  match env.accountUpdateResult i with
  | Except.ok _ => true
  | Except.error _ => false

/-- The accounts actually persisted. -/
def accountPersisted (env : SyncEnv) (accounts : List Account) : List Account :=
  (accountUpdateCalls env accounts).filter (fun a2 => accountUpdateOk env a2.Id)

/-- All failure log records of one account-loop run. -/
def accountLoopLogs (env : SyncEnv) (accounts : List Account) : List LogEvent :=
  accounts.flatMap (perAccountTrace env)

/-- `updateAccounts` (tasks.cpp lines 175-245), as a function of the
`Database::getAll` outcome; same containment structure as
`updateRepositories`. -/
def updateAccounts (env : SyncEnv)
    (getAllOutcome : Except String (List Account)) : SyncRun Account :=
  match getAllOutcome with
  | Except.error m =>
    { result := Except.ok (), updates := [], persisted := [],
      logs := [LogEvent.dbGetAllFailed "github_accounts" m] }
  | Except.ok accounts =>
    if env.clientValid then
      { result := Except.ok (),
        updates := accountUpdateCalls env accounts,
        persisted := accountPersisted env accounts,
        logs := accountLoopLogs env accounts }
    else
      { result := Except.error "Client initialization failed", updates := [],
        persisted := [], logs := [LogEvent.clientNull] }

/-- `syncStats` (tasks.cpp lines 247-262): create the client (failing
fast when no CA bundle resolves), then run `updateRepositories` and, if
it returned success, `updateAccounts`; the overall result and combined
failure log trace. -/
def syncStats (env : SyncEnv)
    (repoOutcome : Except String (List Repository))
    (acctOutcome : Except String (List Account)) :
    Except String Unit × List LogEvent :=
  if env.caCertsOk then
    let rr := updateRepositories env repoOutcome
    match rr.result with
    | Except.error m => (Except.error m, rr.logs)
    | Except.ok _ =>
      let ar := updateAccounts env acctOutcome
      (ar.result, rr.logs ++ ar.logs)
  else
    (Except.error "Error: Could not find CA certificates.",
     [LogEvent.caCertsMissing])

/-! ## Scheduler (`include/insights/core/scheduler.hpp`, and the
`OnGitHubSync` handler of `src/insights.cpp` which has the same shape) -/

/-- Clock-and-timer state seen by the recurring handler: the current
steady-clock instant, the timer's expiry, and whether an `async_wait`
is pending (the handler re-armed the timer). -/
structure TimerState where
  now : Nat
  expiry : Nat
  pending : Bool
deriving DecidableEq, Repr

/-- asio `steady_timer::expires_after d`: the new expiry is measured
from the CURRENT time, `now + d` (not from the previous expiry; that
would be `expires_at(expiry() + d)`, which the source does not use). -/
def expiresAfter (s : TimerState) (d : Nat) : TimerState :=
  { s with expiry := s.now + d }

/-- Running `Task()` synchronously inside the handler advances the
clock by the task's duration. -/
def runTask (s : TimerState) (dur : Nat) : TimerState :=
  { s with now := s.now + dur }

/-- The handler installed by `scheduleRecurringTask` (scheduler.hpp
lines 42-63), invoked when the timer fires with error code `ec`: on a
timer error it logs and returns without re-arming; otherwise it runs
the task, logs the duration, then calls `expires_after(Interval)` and
`async_wait` again.  `dur` is how long `Task()` took. -/
def recurringHandler (interval dur : Nat) (ec : Bool) (s : TimerState) :
    TimerState :=
  if ec then
    { s with pending := false }
  else
    let s1 := runTask s dur
    let s2 := expiresAfter s1 interval
    { s2 with pending := true }

/-- A fetch step that makes the loop body skip at that step: either a
transport failure or an unparseable body (a well-formed object never
fails to decode under the options the source passes to `glz::read`). -/
def fetchFails : FetchOutcome → Bool
  | FetchOutcome.transportError _ => true
  | FetchOutcome.response none => false || true
  | FetchOutcome.response (some _) => false

/-- `Database::getAll<github::models::Repository>`: `SELECT * FROM
github_repositories` decodes every row via `DbTraits<Repository>::fromRow`
(models.hpp), which maps a row one-to-one onto the `Repository` record -
there is no `deleted_at` filter, so soft-deleted rows are included. -/
def repositoriesGetAll (t : List Repository) : List Repository :=
  t

/-- `Database::getAll<github::models::Account>`: same shape for the
`github_accounts` table. -/
def accountsGetAll (t : List Account) : List Account :=
  t

/-! ## Concrete instances used by the closed theorems below -/

/-- The scenario repository of spec section 8:
`Repository{Clones:5, Forks:1, Stars:10, Views:100}`. -/
def repoS : Repository :=
  { Id := "r1", Name := "icicle-insights", AccountId := "a1",
    Clones := 5, Forks := 1, Stars := 10, Subscribers := 0, Views := 100,
    CreatedAt := 0, UpdatedAt := 0, DeletedAt := none }

/-- The parent account of `repoS`. -/
def acctS : Account :=
  { Id := "a1", Name := "guzman109", Followers := 0,
    CreatedAt := 0, UpdatedAt := 0, DeletedAt := none }

/-- Environment in which every external call and storage call succeeds,
with the upstream numbers of the spec scenario: repo stats
`{forks:2, stars:3, subscribers:0}`, clones traffic `{count:7}`, views
traffic `{count:50}`, org stats `{followers:4}`. -/
def envOk : SyncEnv :=
  { caCertsOk := true, clientValid := true,
    accountLookup := fun i =>
      if i == "a1" then Except.ok acctS else Except.error DbError.notFound,
    repoStatsFetch := fun _ _ => FetchOutcome.response
      (some [("forks_count", 2), ("stargazers_count", 3), ("subscribers_count", 0)]),
    clonesFetch := fun _ _ => FetchOutcome.response (some [("count", 7)]),
    viewsFetch := fun _ _ => FetchOutcome.response (some [("count", 50)]),
    orgStatsFetch := fun _ => FetchOutcome.response (some [("followers", 4)]),
    repoUpdateResult := fun _ => Except.ok (),
    accountUpdateResult := fun _ => Except.ok () }

/-- The spec-scenario result: each counter is stored value plus fetched
value. -/
def repoSMerged : Repository :=
  { repoS with Clones := 12, Forks := 3, Stars := 13, Views := 150 }

/-- Like `envOk` but the views-traffic fetch fails at the transport
level (the stats and clones fetches still succeed). -/
def envViewsFail : SyncEnv :=
  { envOk with viewsFetch := fun _ _ => FetchOutcome.transportError "timeout" }

/-- Like `envOk` but `Database::update` fails for every repository. -/
def envUpdFail : SyncEnv :=
  { envOk with repoUpdateResult := fun _ => Except.error "deadlock" }

/-- Like `envOk` but the org-stats fetch fails. -/
def envOrgFail : SyncEnv :=
  { envOk with orgStatsFetch := fun _ => FetchOutcome.transportError "net down" }

/-- Like `envOk` but the repo-stats fetch fails for the repository named
"badrepo". -/
def envK : SyncEnv :=
  { envOk with repoStatsFetch := (fun _ name =>
      if name == "badrepo" then
        FetchOutcome.transportError "rate limited"
      else
        FetchOutcome.response
          (some [("forks_count", 2), ("stargazers_count", 3),
                 ("subscribers_count", 0)])) }

/-- A repository whose stats fetch fails under `envK`. -/
def repoBad : Repository :=
  { repoS with Id := "r9", Name := "badrepo" }

/-- A soft-deleted repository row (`deleted_at` set). -/
def repoDel : Repository :=
  { repoS with Id := "r2", DeletedAt := some 9 }

/-- What the pipeline merges into `repoDel` under `envOk`. -/
def repoDelMerged : Repository :=
  { repoDel with Clones := 12, Forks := 3, Stars := 13, Views := 150 }

/-- A soft-deleted account row. -/
def acctDel : Account :=
  { acctS with Id := "a2", Name := "old-org", DeletedAt := some 9 }

/-- `acctDel` after the followers merge under `envOk`. -/
def acctDelMerged : Account :=
  { acctDel with Followers := 4 }

/-- Like `envOk` but the HTTP client pointer is null. -/
def envNoClient : SyncEnv :=
  { envOk with clientValid := false }

/-- A live database row with `updated_at = 5`, used against the
timestamp claims. -/
def rowLive : DbRow Int :=
  { id := "r1", payload := 7, created_at := 1, updated_at := 5,
    deleted_at := none }

/-- A soft-deleted database row (`deleted_at = some 3`). -/
def rowDel : DbRow Int :=
  { id := "r1", payload := 0, created_at := 1, updated_at := 2,
    deleted_at := some 3 }

/-- A timer state at the instant a scheduled run fires: the clock is at
the scheduled expiry, 100. -/
def timerStateFire : TimerState :=
  { now := 100, expiry := 100, pending := true }

/-- Decidable equality on `Except`, so closed statements about the
modelled outcomes can be settled by evaluation. -/
instance {ε α : Type _} [DecidableEq ε] [DecidableEq α] :
    DecidableEq (Except ε α) := fun x y =>
  match x, y with
  | Except.error e1, Except.error e2 =>
    if h : e1 = e2 then isTrue (by rw [h])
    else isFalse (fun hh => h (by cases hh; rfl))
  | Except.error _, Except.ok _ => isFalse (fun hh => Except.noConfusion hh)
  | Except.ok _, Except.error _ => isFalse (fun hh => Except.noConfusion hh)
  | Except.ok a1, Except.ok a2 =>
    if h : a1 = a2 then isTrue (by rw [h])
    else isFalse (fun hh => h (by cases hh; rfl))

/-! ## Helper lemmas -/

/-- Dropping an element that a `filterMap` discards anyway does not
change the result. -/
theorem filterMap_eraseIdx_of_none {α β : Type _} (f : α → Option β) :
    ∀ (l : List α) (k : Nat) (hk : k < l.length), f l[k] = none →
      l.filterMap f = (l.eraseIdx k).filterMap f := by
  intro l
  induction l with
  | nil => intro k hk; simp at hk
  | cons a t ih =>
    intro k hk hf
    cases k with
    | zero =>
      simp only [List.getElem_cons_zero] at hf
      simp [List.eraseIdx, List.filterMap_cons, hf]
    | succ n =>
      simp only [List.getElem_cons_succ] at hf
      have hn : n < t.length := by simpa using hk
      have := ih n hn hf
      simp only [List.eraseIdx_cons_succ, List.filterMap_cons]
      cases f a <;> simp [this]

/-! ## Claim theorems -/

/-- C2: for the stored Repository with Clones=5, Forks=1, Stars=10,
Views=100, when the repo-stats fetch returns forks:2, stars:3,
subscribers:0, the clones-traffic fetch returns count:7 and the
views-traffic fetch returns count:50, the sync loop issues exactly one
repository update, and the persisted Repository has Clones=12, Forks=3,
Stars=13, Views=150 - each counter is the stored value plus the fetched
value (accumulate, not overwrite). -/
theorem c2_scenario_counters_accumulate :
    (updateRepositories envOk (Except.ok [repoS])).updates = [repoSMerged] ∧
    (updateRepositories envOk (Except.ok [repoS])).persisted = [repoSMerged] ∧
    repoSMerged.Clones = 12 ∧ repoSMerged.Forks = 3 ∧
    repoSMerged.Stars = 13 ∧ repoSMerged.Views = 150 := by
  refine ⟨by decide, by decide, by decide, by decide, by decide, by decide⟩

/-- C1 counterexample: under `envViewsFail` the repo-stats fetch and the
clones-traffic fetch of `repoS` succeed (so forks/stars/subscribers and
clones were already merged in memory), the views-traffic fetch fails -
and the loop body hits `continue` BEFORE the update of step 6, so no
`Database.update` is executed at all and nothing of the partial merge is
persisted, contradicting the claim that the step-6 update still runs. -/
theorem c1_counterexample :
    envViewsFail.repoStatsFetch acctS.Name repoS.Name =
      FetchOutcome.response
        (some [("forks_count", 2), ("stargazers_count", 3), ("subscribers_count", 0)]) ∧
    envViewsFail.clonesFetch acctS.Name repoS.Name =
      FetchOutcome.response (some [("count", 7)]) ∧
    fetchFails (envViewsFail.viewsFetch acctS.Name repoS.Name) = true ∧
    (syncOneRepository envViewsFail repoS).1 = none ∧
    (updateRepositories envViewsFail (Except.ok [repoS])).updates = [] ∧
    (updateRepositories envViewsFail (Except.ok [repoS])).persisted = [] := by
  refine ⟨by decide, by decide, by decide, by decide, by decide, by decide⟩

/-- C1 amended: if the clones-traffic or the views-traffic fetch (or its
decode) fails for a repository, the loop skips the rest of the body via
`continue`: the update of step 6 is NOT executed for that repository, so
the in-memory partial merge of forks/stars/subscribers (and clones) is
discarded and nothing is persisted - there is no rollback because there
is nothing to roll back; persistence happens only at step 6. -/
theorem c1_amended_failure_skips_persist (env : SyncEnv) (r : Repository)
    (acct : Account) (hacct : env.accountLookup r.AccountId = Except.ok acct)
    (hfail : fetchFails (env.clonesFetch acct.Name r.Name) = true ∨
             fetchFails (env.viewsFetch acct.Name r.Name) = true) :
    (syncOneRepository env r).1 = none ∧
    (updateRepositories env (Except.ok [r])).updates = [] ∧
    (updateRepositories env (Except.ok [r])).persisted = [] := by
  have hone : (syncOneRepository env r).1 = none := by
    unfold syncOneRepository
    rw [hacct]
    cases hs : env.repoStatsFetch acct.Name r.Name with
    | transportError m => simp [hs]
    | response body1 =>
      cases body1 with
      | none => simp [hs, readRepoStats]
      | some b1 =>
        cases hc : env.clonesFetch acct.Name r.Name with
        | transportError m => simp [hs, hc, readRepoStats]
        | response body2 =>
          cases body2 with
          | none => simp [hs, hc, readRepoStats, readTraffic]
          | some b2 =>
            have hv : fetchFails (env.viewsFetch acct.Name r.Name) = true := by
              rcases hfail with h | h
              · rw [hc] at h; simp [fetchFails] at h
              · exact h
            cases hvf : env.viewsFetch acct.Name r.Name with
            | transportError m => simp [hs, hc, hvf, readRepoStats, readTraffic]
            | response body3 =>
              cases body3 with
              | none => simp [hs, hc, hvf, readRepoStats, readTraffic]
              | some b3 => rw [hvf] at hv; simp [fetchFails] at hv
  refine ⟨hone, ?_, ?_⟩
  · by_cases hcv : env.clientValid
    · simp [updateRepositories, hcv, repoUpdateCalls, hone]
    · simp [updateRepositories, hcv]
  · by_cases hcv : env.clientValid
    · simp [updateRepositories, hcv, repoPersisted, repoUpdateCalls, hone]
    · simp [updateRepositories, hcv]

/-- C1 witness: the amended statement instantiated at the concrete
views-failure environment. -/
theorem c1_amended_witness :
    (envViewsFail.accountLookup repoS.AccountId = Except.ok acctS ∧
     fetchFails (envViewsFail.viewsFetch acctS.Name repoS.Name) = true) ∧
    ((syncOneRepository envViewsFail repoS).1 = none ∧
     (updateRepositories envViewsFail (Except.ok [repoS])).updates = [] ∧
     (updateRepositories envViewsFail (Except.ok [repoS])).persisted = []) :=
  ⟨⟨by decide, by decide⟩,
   c1_amended_failure_skips_persist envViewsFail repoS acctS (by decide)
     (Or.inr (by decide))⟩

/-- C3 counterexample: `rowDel` is soft-deleted (`deleted_at = some 3`),
yet `Database::get` on its id returns the entity, not `NotFoundError` -
the point query `SELECT * FROM t WHERE id = $1` has no `deleted_at`
clause, so soft-deleted rows are not excluded from the get path. -/
theorem c3_counterexample :
    rowDel.deleted_at = some 3 ∧
    Database.get [rowDel] "r1" = Except.ok rowDel ∧
    Database.get [rowDel] "r1" ≠ Except.error DbError.notFound := by
  refine ⟨by decide, by decide, by decide⟩

/-- C3 amended: `Database::get` returns `NotFoundError` exactly when
zero rows match the id; when a row matches, it is returned even if it is
soft-deleted (the query does not filter on `deleted_at`, so there is no
exclusion of soft-deleted rows from the get path). -/
theorem c3_amended_get_ignores_deleted {α : Type _} (t : Table α) (i : String) :
    (Database.get t i = Except.error DbError.notFound ↔ selectById t i = []) ∧
    (∀ (r : DbRow α) (rest : List (DbRow α)),
      selectById t i = r :: rest → Database.get t i = Except.ok r) := by
  constructor
  · constructor
    · intro h
      cases hsel : selectById t i with
      | nil => rfl
      | cons r rest => simp [Database.get, hsel] at h
    · intro h
      simp [Database.get, h]
  · intro r rest h
    simp [Database.get, h]

/-- C3 witness: the amended statement applied to the one-row table
holding the soft-deleted `rowDel`. -/
theorem c3_amended_witness :
    selectById [rowDel] "r1" = [rowDel] ∧
    Database.get [rowDel] "r1" = Except.ok rowDel :=
  ⟨by decide,
   (c3_amended_get_ignores_deleted [rowDel] "r1").2 rowDel [] (by decide)⟩

/-- C4 counterexample: soft-deleting `rowLive` (stored `updated_at = 5`)
at server time 10 stamps `deleted_at` but leaves `updated_at` at 5: the
`UPDATE ... SET deleted_at = NOW()` statement of `Database::remove` does
not assign `updated_at`, so this mutating operation does not advance it. -/
theorem c4_counterexample :
    rowLive.updated_at = 5 ∧
    (Database.remove [rowLive] "r1" 10).1 =
      [{ rowLive with deleted_at := some 10 }] ∧
    ({ rowLive with deleted_at := some 10 } : DbRow Int).updated_at = 5 := by
  refine ⟨by decide, by decide, by decide⟩

/-- C4 amended: `create` stamps both timestamps with the current server
time, and `update` refreshes `updated_at` to the current server time for
every row matching the id (so `updated_at` advances whenever the server
clock has advanced); but `softDelete` (`Database::remove`) leaves
`updated_at` of every row unchanged - it assigns only `deleted_at`. -/
theorem c4_amended_updated_at_behaviour {α : Type _} (t : Table α)
    (i newId : String) (p : α) (now : Nat) :
    (Database.create t newId p now).2.updated_at = now ∧
    ((Database.update t i p now).1).map (fun r => r.updated_at) =
      t.map (fun r => if r.id == i then now else r.updated_at) ∧
    ((Database.remove t i now).1).map (fun r => r.updated_at) =
      t.map (fun r => r.updated_at) := by
  refine ⟨rfl, ?_, ?_⟩
  · simp only [Database.update]
    rw [List.map_map]
    apply List.map_congr_left
    intro a _
    by_cases h : a.id = i <;> simp [h]
  · simp only [Database.remove]
    rw [List.map_map]
    apply List.map_congr_left
    intro a _
    by_cases h : a.id = i <;> simp [h]

/-- C9: for every id matching no stored row, `Database::remove` runs
`UPDATE ... RETURNING *` on zero rows and then decodes row 0 of the
empty result with no emptiness check - modelled as the decode slot
coming back `none` - whereas `Database::get` guards the same situation
and returns the not-found error.  The table itself is unchanged. -/
theorem c9_remove_unguarded_empty_decode {α : Type _} (t : Table α)
    (i : String) (now : Nat) (h : selectById t i = []) :
    (Database.remove t i now).2 = none ∧
    Database.get t i = Except.error DbError.notFound ∧
    (Database.remove t i now).1 = t := by
  refine ⟨?_, ?_, ?_⟩
  · simp [Database.remove, h]
  · simp [Database.get, h]
  · simp only [Database.remove]
    have : ∀ r ∈ t, (if r.id == i then { r with deleted_at := some now } else r) = r := by
      intro r hr
      by_cases hid : r.id == i
      · exfalso
        have : r ∈ selectById t i := List.mem_filter.mpr ⟨hr, hid⟩
        rw [h] at this
        exact List.not_mem_nil r this
      · simp [hid]
    calc t.map (fun r => if r.id == i then { r with deleted_at := some now } else r)
        = t.map id := List.map_congr_left (by simpa using this)
      _ = t := List.map_id t

/-- C9 witness: the empty-result branch is reachable - a concrete
one-row table and an id matching nothing. -/
theorem c9_witness :
    selectById [rowLive] "nope" = [] ∧
    ((Database.remove [rowLive] "nope" 10).2 = none ∧
     Database.get [rowLive] "nope" = Except.error DbError.notFound ∧
     (Database.remove [rowLive] "nope" 10).1 = [rowLive]) :=
  ⟨by decide, c9_remove_unguarded_empty_decode [rowLive] "nope" 10 (by decide)⟩

/-- C7 counterexample: a run fires at its scheduled time 100 with
interval 10 and the task takes 3 time units; the handler calls
`expires_after(Interval)` only after `Task()` returns, so the next
expiry is 113, not the 110 the claim requires (fixed interval from the
previous run's scheduled time). -/
theorem c7_counterexample :
    timerStateFire.expiry = 100 ∧
    (recurringHandler 10 3 false timerStateFire).expiry = 113 ∧
    (recurringHandler 10 3 false timerStateFire).expiry ≠
      timerStateFire.expiry + 10 := by
  refine ⟨by decide, by decide, by decide⟩

/-- C7 amended: after a run fires at time `s.now` and the task takes
`dur`, the next expiry is `s.now + dur + interval` - a fixed interval
from the previous run's COMPLETION time, because the handler calls
`expires_after(Interval)` after `Task()` returns - and the timer is
re-armed; a timer error (`ec = true`) is logged and the handler returns
without rescheduling: the timer is left un-armed and its expiry
untouched. -/
theorem c7_amended_interval_from_completion (interval dur : Nat)
    (s : TimerState) :
    (recurringHandler interval dur false s).expiry = s.now + dur + interval ∧
    (recurringHandler interval dur false s).pending = true ∧
    recurringHandler interval dur true s = { s with pending := false } := by
  refine ⟨rfl, rfl, rfl⟩

/-- Looking a key up past a block of pairs none of which carry that key
lands in the rest of the object. -/
theorem lookup_append_right_of_ne :
    ∀ (b1 b2 : JsonObj) (k : String), (∀ kv ∈ b1, kv.1 ≠ k) →
      (b1 ++ b2).lookup k = b2.lookup k := by
  intro b1
  induction b1 with
  | nil => intro b2 k h; simp
  | cons hd tl ih =>
    intro b2 k h
    obtain ⟨k1, v1⟩ := hd
    have hk : k1 ≠ k := h (k1, v1) (List.mem_cons_self _ _)
    have hbeq : (k == k1) = false := beq_eq_false_iff_ne.mpr (Ne.symm hk)
    simp only [List.cons_append, List.lookup, hbeq]
    exact ih b2 k (fun kv hkv => h kv (List.mem_cons_of_mem _ hkv))

/-- A key absent from every pair of an object looks up to `none`. -/
theorem lookup_none_of_ne (b : JsonObj) (k : String)
    (h : ∀ kv ∈ b, kv.1 ≠ k) : b.lookup k = none := by
  have := lookup_append_right_of_ne b [] k h
  simpa using this

/-- C6 counterexample: a body that LACKS every required field (it only
carries an unknown field) still decodes successfully for each response
shape, with the fields left at their zero pre-read values - `glz::read`
is called without `error_on_missing_keys`, whose glaze default is
`false`, so a missing required field is NOT a decode failure as the
claim states. -/
theorem c6_counterexample :
    readRepoStats ⟨0, 0, 0⟩ (some [("html_url", 1)]) = Except.ok ⟨0, 0, 0⟩ ∧
    readTraffic ⟨0⟩ (some [("html_url", 1)]) = Except.ok ⟨0⟩ ∧
    readOrgStats ⟨0⟩ (some [("html_url", 1)]) = Except.ok ⟨0⟩ := by
  refine ⟨by decide, by decide, by decide⟩

/-- C6 amended: for every response shape, decoding a well-formed object
always succeeds; unknown extra fields (before or after the known ones)
are ignored and the known fields are populated from their values; and a
MISSING known field is also tolerated - the field keeps its pre-read
value instead of failing.  Only a body that is not a well-formed object
is a decode failure. -/
theorem c6_amended_decode_tolerant
    (pre : GitHubRepoStatsResponse) (preT : GitHubRepoTrafficResponse)
    (preO : GitHubOrgStatsResponse) (b1 b2 : JsonObj) (s f c v fo : Int)
    (h : ∀ kv ∈ b1, kv.1 ≠ "stargazers_count" ∧ kv.1 ≠ "forks_count" ∧
         kv.1 ≠ "subscribers_count" ∧ kv.1 ≠ "count" ∧ kv.1 ≠ "followers") :
    readRepoStats pre (some (b1 ++ ("stargazers_count", s) ::
        ("forks_count", f) :: ("subscribers_count", c) :: b2)) =
      Except.ok ⟨s, f, c⟩ ∧
    readTraffic preT (some (b1 ++ ("count", v) :: b2)) = Except.ok ⟨v⟩ ∧
    readOrgStats preO (some (b1 ++ ("followers", fo) :: b2)) = Except.ok ⟨fo⟩ ∧
    readRepoStats pre (some b1) = Except.ok pre ∧
    readTraffic preT (some b1) = Except.ok preT ∧
    readOrgStats preO (some b1) = Except.ok preO := by
  have h1 : ∀ kv ∈ b1, kv.1 ≠ "stargazers_count" := fun kv hkv => (h kv hkv).1
  have h2 : ∀ kv ∈ b1, kv.1 ≠ "forks_count" := fun kv hkv => (h kv hkv).2.1
  have h3 : ∀ kv ∈ b1, kv.1 ≠ "subscribers_count" := fun kv hkv => (h kv hkv).2.2.1
  have h4 : ∀ kv ∈ b1, kv.1 ≠ "count" := fun kv hkv => (h kv hkv).2.2.2.1
  have h5 : ∀ kv ∈ b1, kv.1 ≠ "followers" := fun kv hkv => (h kv hkv).2.2.2.2
  refine ⟨?_, ?_, ?_, ?_, ?_, ?_⟩
  · simp only [readRepoStats, glzField,
      lookup_append_right_of_ne b1 _ "stargazers_count" h1,
      lookup_append_right_of_ne b1 _ "forks_count" h2,
      lookup_append_right_of_ne b1 _ "subscribers_count" h3,
      List.lookup]
    simp
  · simp only [readTraffic, glzField,
      lookup_append_right_of_ne b1 _ "count" h4, List.lookup]
    simp
  · simp only [readOrgStats, glzField,
      lookup_append_right_of_ne b1 _ "followers" h5, List.lookup]
    simp
  · simp [readRepoStats, glzField, lookup_none_of_ne b1 _ h1,
      lookup_none_of_ne b1 _ h2, lookup_none_of_ne b1 _ h3]
  · simp [readTraffic, glzField, lookup_none_of_ne b1 _ h4]
  · simp [readOrgStats, glzField, lookup_none_of_ne b1 _ h5]

/-- C6 witness: the amended statement at a concrete body with unknown
fields on both sides of the known ones. -/
theorem c6_amended_witness :
    ((("html_url", (9 : Int))) ∈ ([("html_url", (9 : Int))] : JsonObj) →
      ("html_url", (9 : Int)).1 ≠ "stargazers_count") ∧
    readRepoStats ⟨0, 0, 0⟩
      (some ([("html_url", 9)] ++ ("stargazers_count", 3) ::
        ("forks_count", 2) :: ("subscribers_count", 0) ::
        [("open_issues", 7)])) = Except.ok ⟨3, 2, 0⟩ ∧
    readTraffic ⟨0⟩ (some ([("html_url", 9)] ++ ("count", 7) ::
      [("open_issues", 7)])) = Except.ok ⟨7⟩ ∧
    readRepoStats ⟨1, 2, 3⟩ (some [("html_url", 9)]) = Except.ok ⟨1, 2, 3⟩ :=
  ⟨fun _ => by decide,
   (c6_amended_decode_tolerant ⟨0, 0, 0⟩ ⟨0⟩ ⟨0⟩ [("html_url", 9)]
      [("open_issues", 7)] 3 2 0 7 4 (by decide)).1,
   ((c6_amended_decode_tolerant ⟨0, 0, 0⟩ ⟨0⟩ ⟨0⟩ [("html_url", 9)]
      [("open_issues", 7)] 3 2 0 7 4 (by decide)).2).1,
   ((((c6_amended_decode_tolerant ⟨1, 2, 3⟩ ⟨0⟩ ⟨0⟩ [("html_url", 9)]
      [("open_issues", 7)] 3 2 0 7 4 (by decide)).2).2).2).1⟩

/-- C5: if repository k's loop body fails (fetch or decode), every other
repository is processed exactly as if k were not in the batch - the
issued updates and the persisted set equal those of the run on the batch
with k erased, and any other repository whose body succeeds is present
in the issued updates (and in the persisted set when its update
succeeds); `updateRepositories` still returns success, and so does
`syncStats` - the individual failure is not escalated. -/
theorem c5_batch_isolation (env : SyncEnv) (repos : List Repository)
    (acctOutcome : Except String (List Account)) (k : Nat)
    (hk : k < repos.length) (hca : env.caCertsOk = true)
    (hcv : env.clientValid = true)
    (hfail : (syncOneRepository env repos[k]).1 = none) :
    (updateRepositories env (Except.ok repos)).result = Except.ok () ∧
    (updateRepositories env (Except.ok repos)).updates =
      (updateRepositories env (Except.ok (repos.eraseIdx k))).updates ∧
    (updateRepositories env (Except.ok repos)).persisted =
      (updateRepositories env (Except.ok (repos.eraseIdx k))).persisted ∧
    (∀ (j : Nat) (hj : j < repos.length), j ≠ k → ∀ r2 : Repository,
      (syncOneRepository env repos[j]).1 = some r2 →
      r2 ∈ (updateRepositories env (Except.ok repos)).updates ∧
      (repoUpdateOk env r2.Id = true →
        r2 ∈ (updateRepositories env (Except.ok repos)).persisted)) ∧
    (syncStats env (Except.ok repos) acctOutcome).1 = Except.ok () := by
  have hcalls : repoUpdateCalls env repos = repoUpdateCalls env (repos.eraseIdx k) := by
    unfold repoUpdateCalls
    exact filterMap_eraseIdx_of_none _ repos k hk hfail
  have hpers : repoPersisted env repos = repoPersisted env (repos.eraseIdx k) := by
    unfold repoPersisted
    rw [hcalls]
  refine ⟨?_, ?_, ?_, ?_, ?_⟩
  · simp [updateRepositories, hcv]
  · simp [updateRepositories, hcv, hcalls]
  · simp [updateRepositories, hcv, hpers]
  · intro j hj _hjk r2 hr2
    have hmem : r2 ∈ repoUpdateCalls env repos := by
      unfold repoUpdateCalls
      exact List.mem_filterMap.mpr ⟨repos[j], List.getElem_mem hj, hr2⟩
    constructor
    · simp only [updateRepositories, hcv, if_true]
      exact hmem
    · intro hok
      simp only [updateRepositories, hcv, if_true]
      exact List.mem_filter.mpr ⟨hmem, hok⟩
  · cases acctOutcome with
    | error m => simp [syncStats, hca, updateRepositories, updateAccounts, hcv]
    | ok accounts => simp [syncStats, hca, updateRepositories, updateAccounts, hcv]

/-- C5 witness: under `envK` the stats fetch of `repoBad` fails while
`repoS` succeeds; the two-element batch behaves like the batch without
`repoBad` and the orchestrator returns success. -/
theorem c5_witness :
    ((syncOneRepository envK repoBad).1 = none ∧ envK.clientValid = true ∧
     envK.caCertsOk = true) ∧
    (updateRepositories envK (Except.ok [repoBad, repoS])).updates =
      (updateRepositories envK (Except.ok ([repoBad, repoS].eraseIdx 0))).updates ∧
    (syncStats envK (Except.ok [repoBad, repoS]) (Except.ok [acctS])).1 =
      Except.ok () :=
  ⟨⟨by decide, by decide, by decide⟩,
   (c5_batch_isolation envK [repoBad, repoS] (Except.ok [acctS]) 0
      (by decide) (by decide) (by decide) (by decide)).2.1,
   (c5_batch_isolation envK [repoBad, repoS] (Except.ok [acctS]) 0
      (by decide) (by decide) (by decide) (by decide)).2.2.2.2⟩

/-- C8: no failure path of the sync orchestrator or the persistence
layer is silently discarded without a log record: a failed initial
`getAll` is contained (the call still returns success) but carries the
failure record emitted inside `Database::getAll`'s catch block; every
skipped loop body (account lookup, fetch, or decode failure) contributes
a non-empty log trace; a failed `Database.update` leaves its record in
the run's log trace; and a null client is both logged and returned as an
error. -/
theorem c8_no_silent_failure :
    (∀ (env : SyncEnv) (m : String),
      (updateRepositories env (Except.error m)).result = Except.ok () ∧
      (updateRepositories env (Except.error m)).logs =
        [LogEvent.dbGetAllFailed "github_repositories" m]) ∧
    (∀ (env : SyncEnv) (m : String),
      (updateAccounts env (Except.error m)).result = Except.ok () ∧
      (updateAccounts env (Except.error m)).logs =
        [LogEvent.dbGetAllFailed "github_accounts" m]) ∧
    (∀ (env : SyncEnv) (r : Repository),
      (syncOneRepository env r).1 = none → (syncOneRepository env r).2 ≠ []) ∧
    (∀ (env : SyncEnv) (a : Account),
      (syncOneAccount env a).1 = none → (syncOneAccount env a).2 ≠ []) ∧
    (∀ (env : SyncEnv) (repos : List Repository) (r r2 : Repository) (m : String),
      r ∈ repos → (syncOneRepository env r).1 = some r2 →
      env.repoUpdateResult r2.Id = Except.error m →
      LogEvent.dbUpdateFailedTask r2.Id m ∈ repoLoopLogs env repos) ∧
    (∀ (env : SyncEnv) (repos : List Repository),
      env.clientValid = false →
      (updateRepositories env (Except.ok repos)).result =
        Except.error "Client initialization failed" ∧
      (updateRepositories env (Except.ok repos)).logs = [LogEvent.clientNull]) := by
  refine ⟨?_, ?_, ?_, ?_, ?_, ?_⟩
  · intro env m; exact ⟨rfl, rfl⟩
  · intro env m; exact ⟨rfl, rfl⟩
  · intro env r h
    unfold syncOneRepository at h ⊢
    cases hA : env.accountLookup r.AccountId with
    | error e => cases e <;> simp [hA, dbGetLog]
    | ok acct =>
      cases hs : env.repoStatsFetch acct.Name r.Name with
      | transportError m => simp [hA, hs]
      | response body1 =>
        cases body1 with
        | none => simp [hA, hs, readRepoStats]
        | some b1 =>
          cases hc : env.clonesFetch acct.Name r.Name with
          | transportError m => simp [hA, hs, hc, readRepoStats]
          | response body2 =>
            cases body2 with
            | none => simp [hA, hs, hc, readRepoStats, readTraffic]
            | some b2 =>
              cases hv : env.viewsFetch acct.Name r.Name with
              | transportError m =>
                simp [hA, hs, hc, hv, readRepoStats, readTraffic]
              | response body3 =>
                cases body3 with
                | none => simp [hA, hs, hc, hv, readRepoStats, readTraffic]
                | some b3 =>
                  rw [hA] at h
                  simp [hs, hc, hv, readRepoStats, readTraffic] at h
  · intro env a h
    unfold syncOneAccount at h ⊢
    cases ho : env.orgStatsFetch a.Name with
    | transportError m => simp [ho]
    | response body =>
      cases body with
      | none => simp [ho, readOrgStats]
      | some b => rw [ho] at h; simp [readOrgStats] at h
  · intro env repos r r2 m hr hsync hupd
    have hmem : LogEvent.dbUpdateFailedTask r2.Id m ∈ perRepoTrace env r := by
      unfold perRepoTrace
      rcases hsr : syncOneRepository env r with ⟨o, l⟩
      rw [hsr] at hsync
      simp only at hsync
      subst hsync
      simp [hupd]
    unfold repoLoopLogs
    exact List.mem_flatMap.mpr ⟨r, hr, hmem⟩
  · intro env repos h
    simp [updateRepositories, h]

/-- C8 witness: the per-path conclusions at concrete failing
environments - a views-fetch failure, an org-stats failure, a failing
`Database.update`, and a null client. -/
theorem c8_witness :
    ((syncOneRepository envViewsFail repoS).1 = none ∧
     (syncOneAccount envOrgFail acctS).1 = none ∧
     envUpdFail.repoUpdateResult repoSMerged.Id = Except.error "deadlock" ∧
     envNoClient.clientValid = false) ∧
    ((syncOneRepository envViewsFail repoS).2 ≠ [] ∧
     (syncOneAccount envOrgFail acctS).2 ≠ [] ∧
     LogEvent.dbUpdateFailedTask repoSMerged.Id "deadlock" ∈
       repoLoopLogs envUpdFail [repoS] ∧
     (updateRepositories envNoClient (Except.ok [repoS])).result =
       Except.error "Client initialization failed") :=
  ⟨⟨by decide, by decide, by decide, by decide⟩,
   c8_no_silent_failure.2.2.1 envViewsFail repoS (by decide),
   c8_no_silent_failure.2.2.2.1 envOrgFail acctS (by decide),
   c8_no_silent_failure.2.2.2.2.1 envUpdFail [repoS] repoS repoSMerged
     "deadlock" (by decide) (by decide) (by decide),
   (c8_no_silent_failure.2.2.2.2.2 envNoClient [repoS] (by decide)).1⟩

/-- The repository loop body only adds fetched counts to the counter
fields; in particular it never touches `DeletedAt`. -/
theorem syncOneRepository_preserves_deletedAt (env : SyncEnv)
    (r r2 : Repository) (h : (syncOneRepository env r).1 = some r2) :
    r2.DeletedAt = r.DeletedAt := by
  unfold syncOneRepository at h
  cases hA : env.accountLookup r.AccountId with
  | error e => simp [hA] at h
  | ok acct =>
    cases hs : env.repoStatsFetch acct.Name r.Name with
    | transportError m => simp [hA, hs] at h
    | response body1 =>
      cases body1 with
      | none => simp [hA, hs, readRepoStats] at h
      | some b1 =>
        cases hc : env.clonesFetch acct.Name r.Name with
        | transportError m => simp [hA, hs, hc, readRepoStats] at h
        | response body2 =>
          cases body2 with
          | none => simp [hA, hs, hc, readRepoStats, readTraffic] at h
          | some b2 =>
            cases hv : env.viewsFetch acct.Name r.Name with
            | transportError m =>
              simp [hA, hs, hc, hv, readRepoStats, readTraffic] at h
            | response body3 =>
              cases body3 with
              | none => simp [hA, hs, hc, hv, readRepoStats, readTraffic] at h
              | some b3 =>
                simp only [hA, hs, hc, hv, readRepoStats, readTraffic,
                  Option.some.injEq] at h
                rw [← h]

/-- The account loop body only adds to `Followers`; it never touches
`DeletedAt`. -/
theorem syncOneAccount_preserves_deletedAt (env : SyncEnv)
    (a a2 : Account) (h : (syncOneAccount env a).1 = some a2) :
    a2.DeletedAt = a.DeletedAt := by
  unfold syncOneAccount at h
  cases ho : env.orgStatsFetch a.Name with
  | transportError m => simp [ho] at h
  | response body =>
    cases body with
    | none => simp [ho, readOrgStats] at h
    | some b =>
      simp only [ho, readOrgStats, Option.some.injEq] at h
      rw [← h]

/-- C10: the batches the orchestrator loops over come from
`SELECT * FROM ...` with no `deleted_at` filter, so a soft-deleted
repository (or account) whose loop body succeeds is still merged and has
an update issued for it - with its `DeletedAt` mark still set, since the
loop only adds counters and `Database::update`'s assignment list never
touches `deleted_at`. -/
theorem c10_soft_deleted_still_synced (env : SyncEnv)
    (t : List Repository) (ta : List Account) (hcv : env.clientValid = true)
    (r r2 : Repository) (hr : r ∈ t) (hdel : r.DeletedAt.isSome = true)
    (hsync : (syncOneRepository env r).1 = some r2)
    (a : Account) (a2 : Account) (ha : a ∈ ta)
    (hadel : a.DeletedAt.isSome = true)
    (hasync : (syncOneAccount env a).1 = some a2) :
    r2 ∈ (updateRepositories env (Except.ok (repositoriesGetAll t))).updates ∧
    r2.DeletedAt = r.DeletedAt ∧
    a2 ∈ (updateAccounts env (Except.ok (accountsGetAll ta))).updates ∧
    a2.DeletedAt = a.DeletedAt := by
  refine ⟨?_, ?_, ?_, ?_⟩
  · simp only [updateRepositories, repositoriesGetAll, hcv, if_true]
    exact List.mem_filterMap.mpr ⟨r, hr, hsync⟩
  · exact syncOneRepository_preserves_deletedAt env r r2 hsync
  · simp only [updateAccounts, accountsGetAll, hcv, if_true]
    exact List.mem_filterMap.mpr ⟨a, ha, hasync⟩
  · exact syncOneAccount_preserves_deletedAt env a a2 hasync

/-- C10 witness: the soft-deleted `repoDel` and `acctDel` are fully
processed under `envOk`: updates carrying the merged counters and the
original `deleted_at` marks are issued for both. -/
theorem c10_witness :
    (repoDel.DeletedAt.isSome = true ∧ acctDel.DeletedAt.isSome = true ∧
     (syncOneRepository envOk repoDel).1 = some repoDelMerged ∧
     (syncOneAccount envOk acctDel).1 = some acctDelMerged) ∧
    (repoDelMerged ∈
      (updateRepositories envOk (Except.ok (repositoriesGetAll [repoDel]))).updates ∧
     repoDelMerged.DeletedAt = repoDel.DeletedAt ∧
     acctDelMerged ∈
      (updateAccounts envOk (Except.ok (accountsGetAll [acctDel]))).updates ∧
     acctDelMerged.DeletedAt = acctDel.DeletedAt) :=
  ⟨⟨by decide, by decide, by decide, by decide⟩,
   c10_soft_deleted_still_synced envOk [repoDel] [acctDel] (by decide)
     repoDel repoDelMerged (by decide) (by decide) (by decide)
     acctDel acctDelMerged (by decide) (by decide) (by decide)⟩
